import Mathlib

/-
  Verification development for the zpark webhook intake, authorization,
  command-extraction and retrying dispatch pipeline.

  The Python sources embedded here:
    - zpark/api_common.py : authorize_webhook, handle_spark_webhook
    - zpark/v1.py         : Webhook.post (signature authentication)
    - zpark/tasks.py      : task_dispatch_spark_command, task_send_spark_message,
                            task_report_zabbix_active_issues, notify_of_failed_command

  Python exceptions are modelled by an explicit error type carried in a
  result value; side effects (Spark messages sent, celery retries scheduled,
  handler tasks submitted) are modelled as an event trace returned next to the
  result.  Calls to the external Spark and Zabbix APIs are modelled as
  explicit inputs giving what each external call would return or raise.
-/

namespace Zpark

/-- Python exceptions that the embedded code raises or catches. -/
inductive Exc where
  | keyError (key : String)
  | indexError
  | typeError
  | operationalError
  | sparkApiError
  | zabbixApiError
deriving DecidableEq, Repr

/-- Result of a Python computation: a returned value or a raised exception. -/
inductive Py (α : Type) where
  | ok (val : α)
  | raised (e : Exc)
deriving DecidableEq, Repr

/-- The characters after the LAST occurrence of the '@' character in a list,
or none when no '@' occurs.  This embeds the Python expression
caller.rsplit(at-sign, 1)[1] from api_common.py line 58: rsplit with
maxsplit 1 splits at the last '@'; indexing [1] raises IndexError (the
none case) when the separator does not occur. -/
def afterLastAt : List Char → Option (List Char)
  | [] => none
  | c :: rest =>
      match afterLastAt rest with
      | some tail => some tail
      | none => if c = '@' then some rest else none

/-- api_common.py lines 50-62, authorize_webhook.

The personEmail argument is the value of webhook_data at key
data.personEmail, none when the key is missing (Python raises KeyError,
re-raised by the except clause at lines 52-55).  The trusted argument is
app.config SPARK_TRUSTED_USERS, a Python list that may contain None (the
shipped default is a one-element list holding None), hence List (Option
String).  When the list is non-empty the code first computes
domain = at-sign + caller.rsplit at the last '@' (IndexError when the email
has no '@') and then tests membership of the caller and of the domain. -/
def authorize_webhook (personEmail : Option String)
    (trusted : List (Option String)) : Py Bool :=
  match personEmail with
  | none => .raised (.keyError "personEmail")
  | some caller =>
      if trusted.length > 0 then
        match afterLastAt caller.toList with
        | none => .raised .indexError
        | some tail =>
            let domain := "@" ++ String.mk tail
            .ok (decide (some caller ∈ trusted) || decide (some domain ∈ trusted))
      else
        .ok true

/-- The claim's own notion of domain suffix, written from the claim's words:
'@' plus the substring after the last '@' of the email.  Rendered
independently of authorize_webhook (suffix of characters up to the last
'@', computed from the reversed character list). -/
def claimDomain (email : String) : String :=
  "@" ++ String.mk ((email.toList.reverse.takeWhile (fun c => c ≠ '@')).reverse)

lemma afterLastAt_append (cs : List Char) (c : Char) :
    afterLastAt (cs ++ [c]) =
      if c = '@' then some [] else (afterLastAt cs).map (fun t => t ++ [c]) := by
  induction cs with
  | nil => simp [afterLastAt]
  | cons a cs ih =>
      simp only [List.cons_append, afterLastAt, List.append_eq]
      rw [ih]
      by_cases hc : c = '@'
      · simp [hc]
      · simp only [if_neg hc]
        cases h : afterLastAt cs with
        | none => simp [h, apply_ite]
        | some t => simp [h]

lemma afterLastAt_eq_none (cs : List Char) (h : '@' ∉ cs) :
    afterLastAt cs = none := by
  induction cs with
  | nil => rfl
  | cons a cs ih =>
      have ha : a ≠ '@' := fun hEq => h (hEq ▸ List.mem_cons_self a cs)
      have hcs : '@' ∉ cs := fun hm => h (List.mem_cons_of_mem a hm)
      simp [afterLastAt, ih hcs, ha]

lemma afterLastAt_of_mem (cs : List Char) (h : '@' ∈ cs) :
    afterLastAt cs = some ((cs.reverse.takeWhile (fun c => c ≠ '@')).reverse) := by
  induction cs using List.reverseRecOn with
  | nil => simp at h
  | append_singleton cs c ih =>
      rw [afterLastAt_append]
      by_cases hc : c = '@'
      · subst hc
        simp [List.takeWhile_cons]
      · have hmem : '@' ∈ cs := by
          rcases List.mem_append.mp h with h1 | h2
          · exact h1
          · exact absurd (List.mem_singleton.mp h2).symm hc
        rw [ih hmem]
        simp [List.takeWhile_cons, hc]

/-- Claim C1 counterexample: the claim quantifies over every email, but for
an email with no '@' character and a non-empty trust list the code raises
IndexError before the membership test, even when the email itself is a
member of the trust list.  Here the trust list is non-empty and contains
the email "bob", yet authorization does not return allowed=true. -/
theorem c1_counterexample :
    (some "bob") ∈ ([some "bob"] : List (Option String)) ∧
    ([some "bob"] : List (Option String)) ≠ [] ∧
    authorize_webhook (some "bob") [some "bob"] ≠ Py.ok true ∧
    authorize_webhook (some "bob") [some "bob"] = Py.raised Exc.indexError := by
  refine ⟨by decide, by decide, ?_, ?_⟩ <;> decide

/-- Claim C1 (amended): for every email and trust list, if the trust list is
empty authorization returns allowed=true; if the trust list is non-empty
then, for every email that contains an '@' character, authorization
returns allowed=true iff the email or its domain suffix ('@' plus the
substring after the last '@') is a member of the trust list.  (For an
email without '@' and a non-empty trust list the code instead raises
IndexError, see the counterexample.) -/
theorem c1_authorize_amended (email : String) (trusted : List (Option String)) :
    (trusted = [] → authorize_webhook (some email) trusted = Py.ok true) ∧
    (trusted ≠ [] → '@' ∈ email.toList →
      (authorize_webhook (some email) trusted = Py.ok true ↔
        (some email) ∈ trusted ∨ (some (claimDomain email)) ∈ trusted)) := by
  constructor
  · intro h
    subst h
    simp [authorize_webhook]
  · intro hne hat
    have hlen : trusted.length > 0 := List.length_pos.mpr hne
    rw [authorize_webhook, if_pos hlen, afterLastAt_of_mem _ hat]
    simp [claimDomain]

/-- Witness for c1_authorize_amended: the domain suffix of
user@example.org is @example.org, which is in the trust list. -/
theorem c1_authorize_amended_witness :
    authorize_webhook (some "user@example.org") [some "@example.org"] = Py.ok true :=
  ((c1_authorize_amended "user@example.org" [some "@example.org"]).2
    (by decide) (by decide)).mpr (Or.inr (by decide))

/-- Observable side effects of the task layer: a Spark message delivered to a
destination, a celery retry scheduled by self.retry, an invocation of
notify_of_failed_command with its argument tuple, and a handler task
submitted via apply_async. -/
inductive Event where
  | messageSent (dest : String)
  | retryScheduled
  | notifierInvoked (room caller : String) (retries maxRetries : Nat) (exc : Exc)
  | taskSubmitted (taskName : String)
deriving DecidableEq, Repr

/-- Outcome of one execution of a celery task body. -/
inductive TaskOutcome where
  | done
  | returned (b : Bool)
  | retry (e : Exc)
  | raised (e : Exc)
deriving DecidableEq, Repr

/-- tasks.py lines 433-491, notify_of_failed_command.

Arguments room and caller identify the Spark space and the requesting user;
retries and maxRetries are the calling task's self.request.retries and
self.max_retries; exc is the exception being reported.  The send argument
is what the synchronous task_send_spark_message.apply call at line 477
does when it is executed: ok, or a raised exception (re-raised by the
except clause at lines 481-486).  Returns the list of Spark messages that
were delivered and the function's own result.  When retries == 0 the
notification is attempted; when 0 < retries <= maxRetries the function
falls through both branches and returns None; when retries > maxRetries it
hits the explicit pass branch and returns None. -/
def notify_of_failed_command (room caller : String) (retries maxRetries : Nat)
    (exc : Exc) (send : Py Unit) : List Event × Py Unit :=
  if retries = 0 then
    match send with
    | .ok _ => ([.messageSent room], .ok ())
    | .raised e => ([], .raised e)
  else
    ([], .ok ())

/-- Claim C2: per call, the failure notifier sends at most one notification
to the room; it sends only when retries == 0; and for any retries > 0
(including the give-up case retries > maxRetries) it does nothing and
returns successfully, whatever the chat delivery would have done. -/
theorem c2_notify_at_most_once (room caller : String) (retries maxRetries : Nat)
    (exc : Exc) (send : Py Unit) :
    (notify_of_failed_command room caller retries maxRetries exc send).1.length ≤ 1 ∧
    (0 < retries →
      notify_of_failed_command room caller retries maxRetries exc send
        = ([], Py.ok ())) ∧
    ((notify_of_failed_command room caller retries maxRetries exc send).1 ≠ [] →
      retries = 0) := by
  refine ⟨?_, ?_, ?_⟩
  · by_cases h : retries = 0 <;> cases send <;>
      simp [notify_of_failed_command, h]
  · intro hpos
    have h : retries ≠ 0 := Nat.pos_iff_ne_zero.mp hpos
    cases send <;> simp [notify_of_failed_command, h]
  · intro hne
    by_contra h
    cases send <;> simp [notify_of_failed_command, h] at hne

/-- Witness for c2_notify_at_most_once at the give-up case: retries = 5
exceeds maxRetries = 3 and the notifier does nothing and returns
successfully. -/
theorem c2_notify_at_most_once_witness :
    notify_of_failed_command "room1" "caller1" 5 3 Exc.zabbixApiError (Py.ok ())
      = ([], Py.ok ()) :=
  (c2_notify_at_most_once "room1" "caller1" 5 3 Exc.zabbixApiError (Py.ok ())).2.1
    (by decide)

/-- tasks.py lines 202-248, task_send_spark_message.

The to argument is the destination dict; its introspection (emails vs id,
lines 228-231) only selects which field addresses the message, so the
destination is abstracted to one string.  The sendResult argument is what
the external call spark_api.messages.create at line 239 returns: the new
message id, or a raised SparkApiError, in which case the except clause
logs and calls self.retry (line 248) without any notification. -/
def task_send_spark_message (dest : String) (sendResult : Py String) :
    TaskOutcome × List Event :=
  match sendResult with
  | .ok _mid => (.done, [.messageSent dest])
  | .raised e => (.retry e, [.retryScheduled])

/-- tasks.py lines 251-323, task_report_zabbix_active_issues.

room and caller are the task arguments; retries and maxRetries are
self.request.retries and self.max_retries.  zabbixGet is what the external
call zabbix_api.trigger.get at line 279 does (ok, or a raised
ZabbixAPIException); notifySend is what the chat delivery inside
notify_of_failed_command would do if attempted; sparkSend is what the
synchronous task_send_spark_message call at line 317 does.  On a Zabbix
error the except clause (lines 293-296) first calls
notify_of_failed_command(room, caller, self.request.retries,
self.max_retries, e) and then self.retry(exc=e); if the notifier itself
raises, the retry is never reached and the exception propagates.  On a
Spark error in the reply step the except clause (lines 320-323) logs and
calls self.retry without invoking the notifier. -/
def task_report_zabbix_active_issues (room caller : String)
    (retries maxRetries : Nat) (zabbixGet : Py Unit)
    (notifySend : Py Unit) (sparkSend : Py Unit) : TaskOutcome × List Event :=
  match zabbixGet with
  | .raised e =>
      let n := notify_of_failed_command room caller retries maxRetries e notifySend
      match n.2 with
      | .raised err =>
          (.raised err, .notifierInvoked room caller retries maxRetries e :: n.1)
      | .ok _ =>
          (.retry e,
            .notifierInvoked room caller retries maxRetries e :: n.1
              ++ [.retryScheduled])
  | .ok _ =>
      match sparkSend with
      | .raised e => (.retry e, [.retryScheduled])
      | .ok _ => (.done, [.messageSent room])

/-- Recognizer for notifier-invocation events. -/
def isNotifierInvoked : Event → Bool
  | .notifierInvoked _ _ _ _ _ => true
  | _ => false

/-- Claim C6 counterexample: a transient chat-backend failure
(SparkApiError raised by spark_api.messages.create inside
task_send_spark_message) schedules a retry without ever invoking the
failure notifier, refuting the claim that every transient failure invokes
the notifier before the retry is scheduled. -/
theorem c6_counterexample :
    task_send_spark_message "room1" (Py.raised Exc.sparkApiError)
      = (TaskOutcome.retry Exc.sparkApiError, [Event.retryScheduled]) ∧
    (task_send_spark_message "room1" (Py.raised Exc.sparkApiError)).2.all
      (fun ev => !(isNotifierInvoked ev)) = true := by
  exact ⟨rfl, rfl⟩

/-- Claim C6 (amended): only transient monitoring-backend failures trigger
the notifier: when zabbix_api.trigger.get raises, the report task invokes
the failure notifier with exactly (room, caller, retries, maxRetries,
error) as its first action, and — provided the notifier returns
successfully — schedules the retry afterwards; a transient chat-backend
failure (in the reply step of the report task, or in
task_send_spark_message) schedules the retry without invoking the
notifier. -/
theorem c6_notify_before_retry_amended (room caller : String)
    (retries maxRetries : Nat) (e : Exc) (notifySend sparkSend : Py Unit)
    (mid : String) :
    ((task_report_zabbix_active_issues room caller retries maxRetries
        (Py.raised e) notifySend sparkSend).2.head? =
      some (Event.notifierInvoked room caller retries maxRetries e)) ∧
    ((notify_of_failed_command room caller retries maxRetries e notifySend).2
        = Py.ok () →
      (task_report_zabbix_active_issues room caller retries maxRetries
          (Py.raised e) notifySend sparkSend) =
        (TaskOutcome.retry e,
          Event.notifierInvoked room caller retries maxRetries e ::
            (notify_of_failed_command room caller retries maxRetries e
              notifySend).1 ++ [Event.retryScheduled])) ∧
    ((task_report_zabbix_active_issues room caller retries maxRetries
        (Py.ok ()) notifySend (Py.raised e)) =
      (TaskOutcome.retry e, [Event.retryScheduled])) ∧
    (task_send_spark_message mid (Py.raised e)
      = (TaskOutcome.retry e, [Event.retryScheduled])) := by
  refine ⟨?_, ?_, rfl, rfl⟩
  · rw [task_report_zabbix_active_issues]
    cases h : (notify_of_failed_command room caller retries maxRetries e
        notifySend).2 <;> simp [h]
  · intro hok
    rw [task_report_zabbix_active_issues]
    rw [hok]

/-- Witness for c6_notify_before_retry_amended: on the first attempt
(retries = 0) with a working chat delivery, the trace is the notifier
invocation, the notification message, then the scheduled retry. -/
theorem c6_notify_before_retry_amended_witness :
    task_report_zabbix_active_issues "room1" "caller1" 0 3
        (Py.raised Exc.zabbixApiError) (Py.ok ()) (Py.ok ()) =
      (TaskOutcome.retry Exc.zabbixApiError,
        Event.notifierInvoked "room1" "caller1" 0 3 Exc.zabbixApiError ::
          (notify_of_failed_command "room1" "caller1" 0 3 Exc.zabbixApiError
            (Py.ok ())).1 ++ [Event.retryScheduled]) :=
  (c6_notify_before_retry_amended "room1" "caller1" 0 3 Exc.zabbixApiError
    (Py.ok ()) (Py.ok ()) "m").2.1 (by decide)

/-- The fields of the incoming webhook JSON envelope that
handle_spark_webhook and authorize_webhook read.  Each field is none when
the corresponding key is missing from the JSON (a Python dict access then
raises KeyError).  personEmail stands for the nested data.personEmail
value. -/
structure WebhookData where
  resource : Option String
  event : Option String
  name : Option String
  personEmail : Option String
deriving DecidableEq, Repr

/-- The response bodies that handle_spark_webhook can return. -/
inductive RespBody where
  | errorUnsupported
  | errorNotAuthorized
  | errorMalformed
  | errorTaskFail
  | taskid (id : String)
deriving DecidableEq, Repr

/-- Result of handle_spark_webhook: the returned (body, HTTP status) pair or
a propagated exception, together with whether the authorization check ran
and whether a dispatch task submission was attempted. -/
structure HandlerResult where
  resp : Py (RespBody × Nat)
  authorizeRan : Bool
  dispatchRan : Bool
deriving DecidableEq, Repr

/-- The HTTP status of a handler result, none when an exception propagated. -/
def respStatus : Py (RespBody × Nat) → Option Nat
  | .ok (_, status) => some status
  | .raised _ => none

/-- api_common.py lines 65-143, handle_spark_webhook.

The submit argument is what task_dispatch_spark_command.apply_async at
line 126 does: the new task id, or a raised exception (TypeError and
OperationalError are caught at line 127 and turned into a 500; others
would propagate).

Control flow of the source: the first try block (lines 96-116) checks
data.resource and data.event — Python evaluates data['resource'] first and
short-circuits the or — and, in the rejection branch, the log call at
line 100 re-reads data['name'], data['resource'] and data['event'] in that
order; any KeyError in that block, including one raised by
authorize_webhook for a missing personEmail, is caught at line 117 and
answered with the malformed-envelope 400.  An IndexError raised by
authorize_webhook is not caught and propagates.  When authorization
returns False the handler answers 200 with a soft error body (lines
109-116).  After a successful submission the info log at line 138 reads
data['name'] outside any try block, so a missing name key then raises. -/
def handle_spark_webhook (data : WebhookData) (trusted : List (Option String))
    (submit : Py String) : HandlerResult :=
  match data.resource with
  | none => ⟨.ok (.errorMalformed, 400), false, false⟩
  | some r =>
      if r = "messages" then
        match data.event with
        | none => ⟨.ok (.errorMalformed, 400), false, false⟩
        | some ev =>
            if ev = "created" then
              match authorize_webhook data.personEmail trusted with
              | .raised (.keyError _) => ⟨.ok (.errorMalformed, 400), true, false⟩
              | .raised e => ⟨.raised e, true, false⟩
              | .ok false => ⟨.ok (.errorNotAuthorized, 200), true, false⟩
              | .ok true =>
                  match submit with
                  | .raised .typeError => ⟨.ok (.errorTaskFail, 500), true, true⟩
                  | .raised .operationalError =>
                      ⟨.ok (.errorTaskFail, 500), true, true⟩
                  | .raised e => ⟨.raised e, true, true⟩
                  | .ok tid =>
                      match data.name with
                      | none => ⟨.raised (.keyError "name"), true, true⟩
                      | some _ => ⟨.ok (.taskid tid, 200), true, true⟩
            else
              match data.name with
              | none => ⟨.ok (.errorMalformed, 400), false, false⟩
              | some _ => ⟨.ok (.errorUnsupported, 400), false, false⟩
      else
        match data.name with
        | none => ⟨.ok (.errorMalformed, 400), false, false⟩
        | some _ =>
            match data.event with
            | none => ⟨.ok (.errorMalformed, 400), false, false⟩
            | some _ => ⟨.ok (.errorUnsupported, 400), false, false⟩

/-- Claim C3: every webhook envelope whose resource is not "messages" or
whose event is not "created" is answered with HTTP 400, the command
dispatcher is never invoked, and the authorization check never runs. -/
theorem c3_unsupported_rejected_before_authz (data : WebhookData)
    (trusted : List (Option String)) (submit : Py String) (r ev : String)
    (hr : data.resource = some r) (hev : data.event = some ev)
    (hbad : r ≠ "messages" ∨ ev ≠ "created") :
    respStatus (handle_spark_webhook data trusted submit).resp = some 400 ∧
    (handle_spark_webhook data trusted submit).dispatchRan = false ∧
    (handle_spark_webhook data trusted submit).authorizeRan = false := by
  obtain ⟨res, evF, nameF, pe⟩ := data
  simp only at hr hev
  subst hr hev
  by_cases hm : r = "messages"
  · subst hm
    have hcr : ev ≠ "created" := by
      rcases hbad with h | h
      · exact absurd rfl h
      · exact h
    cases nameF <;>
      simp [handle_spark_webhook, respStatus, hcr]
  · cases nameF <;>
      simp [handle_spark_webhook, respStatus, hm]

/-- Witness for c3_unsupported_rejected_before_authz: a memberships/created
webhook is answered 400 with no dispatch and no authorization check. -/
theorem c3_unsupported_rejected_before_authz_witness :
    respStatus (handle_spark_webhook
        ⟨some "memberships", some "created", some "wh", some "a@b"⟩
        [some "a@b"] (Py.ok "tid")).resp = some 400 ∧
    (handle_spark_webhook
        ⟨some "memberships", some "created", some "wh", some "a@b"⟩
        [some "a@b"] (Py.ok "tid")).dispatchRan = false ∧
    (handle_spark_webhook
        ⟨some "memberships", some "created", some "wh", some "a@b"⟩
        [some "a@b"] (Py.ok "tid")).authorizeRan = false :=
  c3_unsupported_rejected_before_authz
    ⟨some "memberships", some "created", some "wh", some "a@b"⟩
    [some "a@b"] (Py.ok "tid") "memberships" "created" rfl rfl
    (Or.inl (by decide))

/-- Claim C9: on a messages/created envelope with data.personEmail absent,
the authorizer raises KeyError rather than returning a boolean, and the
handler answers with the malformed-input 400 — distinct from the
not-allowed outcome, which is answered 200 with a soft error body. -/
theorem c9_missing_email_malformed (data : WebhookData)
    (trusted : List (Option String)) (submit : Py String)
    (hr : data.resource = some "messages") (hev : data.event = some "created")
    (hpe : data.personEmail = none) :
    authorize_webhook data.personEmail trusted
      = Py.raised (Exc.keyError "personEmail") ∧
    (handle_spark_webhook data trusted submit).resp
      = Py.ok (RespBody.errorMalformed, 400) ∧
    (∀ data2 : WebhookData, data2.resource = some "messages" →
      data2.event = some "created" →
      authorize_webhook data2.personEmail trusted = Py.ok false →
      (handle_spark_webhook data2 trusted submit).resp
        = Py.ok (RespBody.errorNotAuthorized, 200)) := by
  obtain ⟨res, evF, nameF, pe⟩ := data
  simp only at hr hev hpe
  subst hr hev hpe
  refine ⟨rfl, rfl, ?_⟩
  intro data2 hr2 hev2 hauth
  obtain ⟨res2, ev2, name2, pe2⟩ := data2
  simp only at hr2 hev2 hauth
  subst hr2 hev2
  simp [handle_spark_webhook, hauth]

/-- Witness for c9_missing_email_malformed: concrete envelope with no
personEmail gets the malformed 400, and a concrete untrusted sender gets
the soft 200. -/
theorem c9_missing_email_malformed_witness :
    authorize_webhook none [some "trust@zpark"]
      = Py.raised (Exc.keyError "personEmail") ∧
    (handle_spark_webhook ⟨some "messages", some "created", some "wh", none⟩
        [some "trust@zpark"] (Py.ok "tid")).resp
      = Py.ok (RespBody.errorMalformed, 400) ∧
    (handle_spark_webhook
        ⟨some "messages", some "created", some "wh", some "evil@other"⟩
        [some "trust@zpark"] (Py.ok "tid")).resp
      = Py.ok (RespBody.errorNotAuthorized, 200) := by
  have h := c9_missing_email_malformed
    ⟨some "messages", some "created", some "wh", none⟩
    [some "trust@zpark"] (Py.ok "tid") rfl rfl rfl
  exact ⟨h.1, h.2.1,
    h.2.2 ⟨some "messages", some "created", some "wh", some "evil@other"⟩
      rfl rfl (by decide)⟩

/-- Claim C10: on a messages/created envelope whose personEmail contains no
'@', with a non-empty trust list, the authorizer raises IndexError (not
the KeyError that the handler catches), so the handler returns neither the
400 malformed response nor the 200 not-authorized response: the exception
propagates to its caller. -/
theorem c10_no_at_sign_propagates (data : WebhookData)
    (trusted : List (Option String)) (submit : Py String) (email : String)
    (hr : data.resource = some "messages") (hev : data.event = some "created")
    (hpe : data.personEmail = some email) (hat : '@' ∉ email.toList)
    (hne : trusted ≠ []) :
    authorize_webhook (some email) trusted = Py.raised Exc.indexError ∧
    (handle_spark_webhook data trusted submit).resp
      = Py.raised Exc.indexError := by
  have hlen : trusted.length > 0 := List.length_pos.mpr hne
  have hauth : authorize_webhook (some email) trusted
      = Py.raised Exc.indexError := by
    rw [authorize_webhook, if_pos hlen, afterLastAt_eq_none _ hat]
  refine ⟨hauth, ?_⟩
  obtain ⟨res, evF, nameF, pe⟩ := data
  simp only at hr hev hpe
  subst hr hev hpe
  simp [handle_spark_webhook, hauth]

/-- Witness for c10_no_at_sign_propagates: the email bob has no '@'; with a
non-empty trust list the handler raises IndexError instead of answering. -/
theorem c10_no_at_sign_propagates_witness :
    authorize_webhook (some "bob2") [some "trust@zpark"]
      = Py.raised Exc.indexError ∧
    (handle_spark_webhook ⟨some "messages", some "created", some "wh",
        some "bob2"⟩ [some "trust@zpark"] (Py.ok "tid")).resp
      = Py.raised Exc.indexError :=
  c10_no_at_sign_propagates
    ⟨some "messages", some "created", some "wh", some "bob2"⟩
    [some "trust@zpark"] (Py.ok "tid") "bob2" rfl rfl rfl (by decide)
    (by decide)

/-- A character matched by the regex class [,:;] at tasks.py line 100. -/
def isDelimChar (c : Char) : Bool := c = ',' || c = ':' || c = ';'

/-- A character matched by the regex class backslash-s at tasks.py line 100
(the ASCII range of Python's whitespace class; the embedded claims only
involve ASCII text). -/
def isPyWhitespace (c : Char) : Bool :=
  c = ' ' || c = '\t' || c = '\n' || c = '\x0d' || c = '\x0b' || c = '\x0c'

/-- tasks.py lines 92-93: the anchored regex match
re.match over spark-mention markup.  The pattern is: the literal
text <spark-mention, then one or more characters other than a closing
angle bracket, then the closing angle bracket, then the captured group of
one or more characters other than an opening angle bracket, then the
literal closing tag.  Both starred-plus classes exclude the character that
must follow them, so the unique regex match is the maximal munch embedded
here with takeWhile/dropWhile.  Returns the captured bot name, or none
when the markup does not start with such a mention span (m is None at
line 94). -/
def parseMention (html : String) : Option String :=
  match List.isPrefixOf "<spark-mention".toList html.toList with
  | false => none
  | true =>
      let rest := html.toList.drop "<spark-mention".toList.length
      let attrs := rest.takeWhile (fun c => c ≠ '>')
      match rest.dropWhile (fun c => c ≠ '>') with
      | '>' :: rest2 =>
          if attrs = [] then none
          else
            let captured := rest2.takeWhile (fun c => c ≠ '<')
            let rest3 := rest2.dropWhile (fun c => c ≠ '<')
            if captured = [] then none
            else if List.isPrefixOf "</spark-mention>".toList rest3 then
              some (String.mk captured)
            else none
      | _ => none

/-- tasks.py line 100: the expression re.split of the pattern made of a
start anchor, the bot name, zero or more delimiter characters from the
class comma/colon/semicolon, then zero or more whitespace characters,
applied to the plain message text with maxsplit 1, indexed at [1].  For a
bot name free of regex metacharacters (the dispatched bot names are plain
words such as Zpark) the anchored pattern matches exactly when the text
starts with the bot name; the remainder after the greedy delimiter and
whitespace runs is the command.  none embeds the IndexError raised by the
[1] indexing when the pattern does not match. -/
def stripBotName (botName text : String) : Option String :=
  if List.isPrefixOf botName.toList text.toList then
    let rest := text.toList.drop botName.toList.length
    let rest := rest.dropWhile isDelimChar
    let rest := rest.dropWhile isPyWhitespace
    some (String.mk rest)
  else none

/-- Result of the command-extraction portion of task_dispatch_spark_command
(tasks.py lines 86-110). -/
inductive ExtractResult where
  | cmd (c : String)
  | ignoredNoMention
  | raisedExc (e : Exc)
deriving DecidableEq, Repr

/-- tasks.py lines 86-110: derive the command text from the message.  In a
group room the bot name found in the mention markup is stripped from the
plain text along with trailing delimiters; a missing mention span makes
the task return False (ignoredNoMention); a plain text that does not start
with the mention name makes the [1] indexing raise IndexError.  In any
other room type the command is the plain text unchanged. -/
def extract_command (roomType html text : String) : ExtractResult :=
  if roomType = "group" then
    match parseMention html with
    | some botName =>
        match stripBotName botName text with
        | some c => .cmd c
        | none => .raisedExc .indexError
    | none => .ignoredNoMention
  else .cmd text

/-- The delimiters enumerated by claim C4 between the bot name and the
command. -/
def c4Delims : List String := ["", " ", ",", ", ", ";", "; ", ":", ": "]

lemma extract_command_group (html text botName : String)
    (hp : parseMention html = some botName) :
    extract_command "group" html text =
      match stripBotName botName text with
      | some c => ExtractResult.cmd c
      | none => ExtractResult.raisedExc Exc.indexError := by
  simp [extract_command, hp]

/-- Claim C4: for every group-room message whose markup starts with a
mention span naming the bot Zpark, and every delimiter in the eight-element
set, extracting from the plain text Zpark-delimiter-show-issues yields the
command "show issues". -/
theorem c4_group_delimiters (html d : String)
    (hp : parseMention html = some "Zpark") (hd : d ∈ c4Delims) :
    extract_command "group" html ("Zpark" ++ d ++ "show issues")
      = ExtractResult.cmd "show issues" := by
  rw [extract_command_group html _ "Zpark" hp]
  fin_cases hd <;> rfl

/-- Witness for c4_group_delimiters on concrete markup and the comma-space
delimiter. -/
theorem c4_group_delimiters_witness :
    extract_command "group"
        "<spark-mention data-x>Zpark</spark-mention> show issues"
        ("Zpark" ++ ", " ++ "show issues")
      = ExtractResult.cmd "show issues" :=
  c4_group_delimiters
    "<spark-mention data-x>Zpark</spark-mention> show issues" ", "
    (by decide) (by decide)

/-- The claim's own notion of whitespace-trimming, written from the claim's
words: the plain text with leading and trailing whitespace removed. -/
def claimTrimmed (s : String) : String :=
  String.mk (((s.toList.dropWhile isPyWhitespace).reverse.dropWhile
    isPyWhitespace).reverse)

/-- Claim C8 counterexample: in a direct room the extractor returns the
plain text unchanged, not whitespace-trimmed: for the text consisting of a
space followed by hello, the extracted command keeps the leading space, so
it differs from the trimmed text. -/
theorem c8_counterexample :
    extract_command "direct" "x" " hello" = ExtractResult.cmd " hello" ∧
    claimTrimmed " hello" = "hello" ∧
    extract_command "direct" "x" " hello"
      ≠ ExtractResult.cmd (claimTrimmed " hello") := by
  refine ⟨rfl, by decide, by decide⟩

/-- Claim C8 (amended): for every message received in a direct room, the
command produced by the extractor is the plain text of the message
unchanged — no mention stripping and no whitespace trimming (case-folding
happens only later, at the dispatch-table lookup). -/
theorem c8_direct_room_amended (html text : String) :
    extract_command "direct" html text = ExtractResult.cmd text := by
  simp [extract_command]

/-- The message fields that task_dispatch_spark_command reads from the
Spark message it fetches. -/
structure SparkMsg where
  text : String
  html : String
deriving DecidableEq, Repr

/-- The room fields that task_dispatch_spark_command reads from the Spark
room it fetches. -/
structure SparkRoom where
  roomType : String
deriving DecidableEq, Repr

/-- tasks.py line 119: the sanity regex re.fullmatch of one or more
characters from the class a-z A-Z 0-9 and the space, applied to the
command.  The plus requires at least one character. -/
def validCmd (cmd : String) : Bool :=
  cmd.toList ≠ [] && cmd.toList.all (fun c => c.isAlphanum || c = ' ')

/-- tasks.py lines 136-151: the dispatch table from exact lower-cased
command strings to handler tasks (represented by the task names). -/
def dispatch_map : List (String × String) :=
  [("hello", "task_say_hello"),
   ("show issues", "task_report_zabbix_active_issues"),
   ("show status", "task_report_zabbix_server_status")]

/-- tasks.py lines 30-161, task_dispatch_spark_command.

The external calls are inputs: msgGet is spark_api.messages.get (line 70),
roomGet is spark_api.rooms.get (line 78), peopleGet is
spark_api.people.get (line 127), submit is the apply_async of the selected
handler task (line 157, not wrapped in any try, so a raised exception
propagates).  A SparkApiError from any of the three get calls makes the
task call self.retry.  After extraction, a command longer than 79
characters or failing the sanity regex makes the task return False with no
further external call; an unknown command likewise returns False. -/
def task_dispatch_spark_command (msgGet : Py SparkMsg) (roomGet : Py SparkRoom)
    (peopleGet : Py String) (submit : Py String) : TaskOutcome × List Event :=
  match msgGet with
  | .raised e => (.retry e, [.retryScheduled])
  | .ok msg =>
      match roomGet with
      | .raised e => (.retry e, [.retryScheduled])
      | .ok room =>
          match extract_command room.roomType msg.html msg.text with
          | .ignoredNoMention => (.returned false, [])
          | .raisedExc e => (.raised e, [])
          | .cmd cmd =>
              if cmd.length > 79 then (.returned false, [])
              else if validCmd cmd = false then (.returned false, [])
              else
                match peopleGet with
                | .raised e => (.retry e, [.retryScheduled])
                | .ok _caller =>
                    match (dispatch_map.lookup cmd.toLower) with
                    | none => (.returned false, [])
                    | some taskName =>
                        match submit with
                        | .raised e => (.raised e, [])
                        | .ok _tid => (.returned true, [.taskSubmitted taskName])

/-- Claim C5: an extracted command proceeds to dispatch only if it is at
most 79 characters and matches the alphanumeric-and-space pattern; a
command violating either condition makes the task return False with an
empty effect trace: no handler task submitted, no retry scheduled, no
notification sent. -/
theorem c5_invalid_command_dropped (msgGet : Py SparkMsg)
    (roomGet : Py SparkRoom) (peopleGet : Py String) (submit : Py String)
    (msg : SparkMsg) (room : SparkRoom) (cmd : String)
    (hm : msgGet = Py.ok msg) (hr : roomGet = Py.ok room)
    (hx : extract_command room.roomType msg.html msg.text
      = ExtractResult.cmd cmd) :
    ((cmd.length > 79 ∨ validCmd cmd = false) →
      task_dispatch_spark_command msgGet roomGet peopleGet submit
        = (TaskOutcome.returned false, [])) ∧
    (∀ taskName,
      Event.taskSubmitted taskName
          ∈ (task_dispatch_spark_command msgGet roomGet peopleGet submit).2 →
      cmd.length ≤ 79 ∧ validCmd cmd = true) := by
  subst hm hr
  constructor
  · intro hbad
    rcases hbad with hlen | hv
    · simp [task_dispatch_spark_command, hx, if_pos hlen]
    · by_cases hlen : cmd.length > 79
      · simp [task_dispatch_spark_command, hx, if_pos hlen]
      · simp [task_dispatch_spark_command, hx, if_neg hlen, hv]
  · intro taskName hmem
    by_cases hlen : cmd.length > 79
    · simp [task_dispatch_spark_command, hx, if_pos hlen] at hmem
    · by_cases hv : validCmd cmd = false
      · simp [task_dispatch_spark_command, hx, if_neg hlen, hv] at hmem
      · exact ⟨Nat.le_of_not_lt hlen, eq_true_of_ne_false hv⟩

/-- The plain text of the too-long spec example: "show" followed by
25 copies of " run", 104 characters in all. -/
def longCmdText : String := "show" ++ String.join (List.replicate 25 " run")

/-- Witness for c5_invalid_command_dropped: the 104-character command is
dropped with an empty effect trace, in a direct room where the extracted
command is the message text itself. -/
theorem c5_invalid_command_dropped_witness :
    task_dispatch_spark_command (Py.ok ⟨longCmdText, ""⟩)
        (Py.ok ⟨"direct"⟩) (Py.ok "person") (Py.ok "tid")
      = (TaskOutcome.returned false, []) :=
  (c5_invalid_command_dropped (Py.ok ⟨longCmdText, ""⟩) (Py.ok ⟨"direct"⟩)
      (Py.ok "person") (Py.ok "tid") ⟨longCmdText, ""⟩ ⟨"direct"⟩ longCmdText
      rfl rfl (by rfl)).1
    (Or.inl (by decide))

/-- Outcome of the authentication portion of the Webhook.post resource. -/
inductive WebhookAuth where
  | accepted
  | rejected (status : Nat)
  | raisedExc (e : Exc)
deriving DecidableEq, Repr

/-- v1.py lines 96-136, the authentication portion of Webhook.post.

secretEntry models the Flask app.config entry for SPARK_WEBHOOK_SECRET:
none when the key is absent from the config dict (the only way the guard
at line 102 is skipped — the test suite disables authentication by
deleting the key), some none when the key is present with the shipped
default value None (default_settings.py line 48), and some (some s) when a
secret string s is configured.  header is the X-Spark-Signature request
header (line 96).  hmacHex is the HMAC-SHA1 hex-digest function of the
Python standard library, abstracted as a function of the secret and the
raw request body.  With the key present, a missing header is answered
403 (lines 103-112); with the default None value and a header present, the
expression bytes(None, utf-8) at line 114 raises TypeError; otherwise the
computed digest is compared to the header and a mismatch is answered 403
(lines 119-131); on success the request proceeds to handle_spark_webhook
(line 136). -/
def webhook_post (secretEntry : Option (Option String))
    (header : Option String) (body : String)
    (hmacHex : String → String → String) : WebhookAuth :=
  match secretEntry with
  | none => .accepted
  | some secret =>
      match header with
      | none => .rejected 403
      | some h =>
          match secret with
          | none => .raisedExc .typeError
          | some s =>
              if hmacHex s body = h then .accepted else .rejected 403

/-- Claim C7 counterexample: with the shipped default configuration
SPARK_WEBHOOK_SECRET = None (the no-secret-configured state named by the
claim), the config key is present, so a request without a signature header
is rejected with 403 rather than always accepted, and a request with a
header raises TypeError; both refute that the authenticator always accepts
when no secret is configured, and the 403 also occurs with no secret
configured. -/
theorem c7_counterexample :
    webhook_post (some none) none "body" (fun _ _ => "") =
      WebhookAuth.rejected 403 ∧
    webhook_post (some none) none "body" (fun _ _ => "") ≠
      WebhookAuth.accepted ∧
    webhook_post (some none) (some "sig") "body" (fun _ _ => "") =
      WebhookAuth.raisedExc Exc.typeError := by
  exact ⟨rfl, by decide, rfl⟩

/-- Claim C7 (amended): when the SPARK_WEBHOOK_SECRET key is absent from
the application config, the authenticator always accepts, whatever the
signature header; the 403 rejection occurs exactly when the key is present
and either the header is missing or the configured secret is a string
whose HMAC-SHA1 hex digest of the raw body differs from the header; and
when the key is present with the default value None, a supplied header
leads to a raised TypeError rather than a decision. -/
theorem c7_authentication_amended (header : Option String) (body : String)
    (hmacHex : String → String → String) (secretEntry : Option (Option String)) :
    webhook_post none header body hmacHex = WebhookAuth.accepted ∧
    (webhook_post secretEntry header body hmacHex = WebhookAuth.rejected 403 ↔
      (secretEntry ≠ none ∧
        (header = none ∨ ∃ s h, secretEntry = some (some s) ∧ header = some h ∧
          hmacHex s body ≠ h))) ∧
    (∀ h, webhook_post (some none) (some h) body hmacHex
      = WebhookAuth.raisedExc Exc.typeError) := by
  refine ⟨rfl, ?_, fun h => rfl⟩
  cases secretEntry with
  | none => simp [webhook_post]
  | some secret =>
      cases header with
      | none => simp [webhook_post]
      | some h =>
          cases secret with
          | none => simp [webhook_post]
          | some s =>
              by_cases heq : hmacHex s body = h
              · simp [webhook_post, heq]
              · simp [webhook_post, heq]

end Zpark
